import Mathlib

/-!
# Verification of the Google Contacts MCP server's OAuth token bridge

Shallow embedding of the token-bridge core of the repository
`OffleashXYZ/google-contacts-mcp-server`:

* `src/auth-code-store.ts` — `AuthCodeStore` (ephemeral authorization-code records),
* `src/session-manager.ts` — `SessionManager` (durable session records plus the
  `refresh:`-prefixed refresh-token index entries, all in one DynamoDB table),
* `src/oauth-provider.ts` — `GoogleOAuthProvider` (the OAuth 2.1 token bridge:
  code exchange, refresh, verification, revocation).

Timestamps are milliseconds since the epoch, modelled as `Nat` (`Date.now()`).
The DynamoDB tables are modelled as association lists keyed by strings; a
`put` overwrites the binding for its key and a `delete` removes it, matching
DynamoDB `PutCommand`/`DeleteCommand` semantics for a fixed primary key.
The sessions table physically holds both `SessionData` items (keyed by the
downstream access token) and refresh-index items (keyed by
`"refresh:" ++ refreshToken`); since downstream tokens are base64url strings
that never contain `:`, the two key families are disjoint and are modelled as
two association lists.

External collaborators (Node's `crypto`, Google's OAuth client) are inputs:
freshly minted random tokens and the outcome of each upstream Google call are
passed as explicit parameters to the operations that consume them.
-/

set_option linter.unusedVariables false

namespace GCMCP

/-- Association-list lookup (first binding for the key wins), modelling a
DynamoDB get-by-primary-key. -/
def lookupKey {α : Type} (k : String) : List (String × α) → Option α
  | [] => none
  | (k', v) :: rest => if k' = k then some v else lookupKey k rest

/-- Overwrite-or-insert the binding for key `k`, modelling a DynamoDB
`PutCommand` on primary key `k`. -/
def putKey {α : Type} (k : String) (v : α) (m : List (String × α)) :
    List (String × α) :=
  (k, v) :: m.filter (fun p => p.1 != k)

/-- Remove the binding for key `k`, modelling a DynamoDB `DeleteCommand`
(idempotent: no effect if the key is absent). -/
def delKey {α : Type} (k : String) (m : List (String × α)) :
    List (String × α) :=
  m.filter (fun p => p.1 != k)

theorem lookupKey_filter_ne {α : Type} (k k' : String) (h : k' ≠ k)
    (m : List (String × α)) :
    lookupKey k' (m.filter (fun p => p.1 != k)) = lookupKey k' m := by
  induction m with
  | nil => rfl
  | cons a rest ih =>
    by_cases ha : a.1 = k
    · have h1 : (a.1 != k) = false := by simp [ha]
      have h2 : a.1 ≠ k' := by rw [ha]; exact fun hc => h hc.symm
      simp [List.filter_cons, h1, lookupKey, h2, ih]
    · have h1 : (a.1 != k) = true := by simp [ha]
      by_cases hk' : a.1 = k'
      · simp [List.filter_cons, h1, lookupKey, hk', h]
      · simp [List.filter_cons, h1, lookupKey, hk', h, ih]

theorem lookupKey_putKey_self {α : Type} (k : String) (v : α)
    (m : List (String × α)) :
    lookupKey k (putKey k v m) = some v := by
  simp [lookupKey, putKey]

theorem lookupKey_putKey_ne {α : Type} (k k' : String) (v : α)
    (h : k' ≠ k) (m : List (String × α)) :
    lookupKey k' (putKey k v m) = lookupKey k' m := by
  have : k ≠ k' := fun hc => h hc.symm
  simp only [putKey, lookupKey, this, if_false]
  exact lookupKey_filter_ne k k' h m

theorem lookupKey_delKey_self {α : Type} (k : String)
    (m : List (String × α)) :
    lookupKey k (delKey k m) = none := by
  induction m with
  | nil => rfl
  | cons a rest ih =>
    by_cases ha : a.1 = k
    · have : (a.1 != k) = false := by simp [ha]
      simp only [delKey, List.filter_cons, this]
      exact ih
    · have : (a.1 != k) = true := by simp [ha]
      simp only [delKey, List.filter_cons, this, lookupKey, if_neg ha]
      exact ih

theorem lookupKey_delKey_ne {α : Type} (k k' : String)
    (h : k' ≠ k) (m : List (String × α)) :
    lookupKey k' (delKey k m) = lookupKey k' m :=
  lookupKey_filter_ne k k' h m

/-! ## Data model (`src/auth-code-store.ts`, `src/session-manager.ts`) -/

/-- The `googleTokens` field of `AuthorizationCodeData`
(src/auth-code-store.ts): upstream Google credentials recorded by the
callback. -/
structure GoogleTokens where
  accessToken : String
  refreshToken : Option String
  expiresAt : Nat
  userEmail : Option String
deriving Repr, DecidableEq

/-- `AuthorizationCodeData` (src/auth-code-store.ts): one ephemeral
authorization-code record. `state` is the downstream client's opaque state. -/
structure AuthorizationCodeData where
  authCode : String
  clientId : String
  codeChallenge : String
  redirectUri : String
  state : Option String
  googleAuthCode : Option String
  googleTokens : Option GoogleTokens
  scopes : Option (List String)
  createdAt : Nat
  ttl : Nat
deriving Repr, DecidableEq

/-- `SessionData` (src/session-manager.ts). The TS interface declares every
field except `mcpTokenExpiresAt`; that extra attribute is written by
`GoogleOAuthProvider` (oauth-provider.ts lines 185, 251) and stored verbatim
by DynamoDB, so it is carried here as an optional field. `expiresAt` is the
upstream Google access-token expiry; `mcpTokenExpiresAt` is the downstream
(MCP) 30-day expiry. -/
structure SessionData where
  sessionId : String
  clientId : Option String
  userEmail : Option String
  accessToken : String
  refreshToken : Option String
  mcpRefreshToken : Option String
  expiresAt : Nat
  mcpTokenExpiresAt : Option Nat
  tokenType : String
  scope : String
  ttl : Nat
  createdAt : Nat
  updatedAt : Nat
deriving Repr, DecidableEq

/-- The refresh-index item written by `SessionManager.saveSession` under key
`"refresh:" ++ mcpRefreshToken`: it carries only `accessTokenSessionId`,
`ttl`, `createdAt`, `updatedAt`. -/
structure RefreshIndexItem where
  accessTokenSessionId : String
  ttl : Nat
  createdAt : Nat
  updatedAt : Nat
deriving Repr, DecidableEq

/-- The single DynamoDB sessions table, split by the disjoint key families:
plain token keys (`SessionData` items) and `refresh:`-prefixed keys
(`RefreshIndexItem` items). -/
structure SessionTable where
  sessions : List (String × SessionData)
  refreshIdx : List (String × RefreshIndexItem)
deriving Repr, DecidableEq

/-! ## `AuthCodeStore` (src/auth-code-store.ts) -/

namespace AuthCodeStore

/-- 10 minutes in seconds (`TEN_MINUTES` in `saveAuthCode`). -/
def TEN_MINUTES : Nat := 10 * 60

/-- 10 minutes in milliseconds (`TEN_MINUTES_MS` in `getAuthCode`). -/
def TEN_MINUTES_MS : Nat := 10 * 60 * 1000

/-- `AuthCodeStore.saveAuthCode`: stores the record with
`ttl = floor(now/1000) + 600` and `createdAt = now`. The caller
(`GoogleOAuthProvider.authorize`) supplies `clientId`, `codeChallenge`,
`redirectUri`, `state`, `scopes`; `googleAuthCode`/`googleTokens` are absent. -/
def saveAuthCode (now : Nat) (authCode : String) (clientId codeChallenge
    redirectUri : String) (state : Option String) (scopes : Option (List String))
    (table : List (String × AuthorizationCodeData)) :
    List (String × AuthorizationCodeData) :=
  let ttl := now / 1000 + TEN_MINUTES
  putKey authCode
    { authCode := authCode
      clientId := clientId
      codeChallenge := codeChallenge
      redirectUri := redirectUri
      state := state
      googleAuthCode := none
      googleTokens := none
      scopes := scopes
      createdAt := now
      ttl := ttl } table

/-- `AuthCodeStore.getAuthCode`: returns the record, unless it is absent or
`now - createdAt > 10 minutes`, in which case the expired record is lazily
deleted and `null` returned. Returns the (possibly mutated) table alongside. -/
def getAuthCode (now : Nat) (authCode : String)
    (table : List (String × AuthorizationCodeData)) :
    Option AuthorizationCodeData × List (String × AuthorizationCodeData) :=
  match lookupKey authCode table with
  | none => (none, table)
  | some data =>
    if now - data.createdAt > TEN_MINUTES_MS then
      (none, delKey authCode table)
    else
      (some data, table)

/-- `AuthCodeStore.deleteAuthCode`: unconditional delete, idempotent. -/
def deleteAuthCode (authCode : String)
    (table : List (String × AuthorizationCodeData)) :
    List (String × AuthorizationCodeData) :=
  delKey authCode table

/-- `AuthCodeStore.updateWithGoogleTokens`: re-reads the record through
`getAuthCode`; throws `Error('Authorization code not found or expired')` when
absent/expired, else puts back `{...existingData, googleAuthCode, googleTokens}`
— every other field, `createdAt` and `ttl` included, is carried over
unchanged. The `Bool` result is `false` on the throw. -/
def updateWithGoogleTokens (now : Nat) (authCode : String)
    (googleAuthCode : String) (googleTokens : GoogleTokens)
    (table : List (String × AuthorizationCodeData)) :
    Bool × List (String × AuthorizationCodeData) :=
  match getAuthCode now authCode table with
  | (none, table') => (false, table')
  | (some existingData, table') =>
    (true,
      putKey authCode
        { existingData with
          googleAuthCode := some googleAuthCode
          googleTokens := some googleTokens } table')

end AuthCodeStore

/-! ## `SessionManager` (src/session-manager.ts) -/

namespace SessionManager

/-- 90 days in seconds (`NINETY_DAYS` in src/session-manager.ts). -/
def NINETY_DAYS : Nat := 90 * 24 * 60 * 60

/-- Argument of `saveSession`: `Omit<SessionData, 'ttl'|'createdAt'|'updatedAt'>`. -/
structure SaveSessionInput where
  sessionId : String
  clientId : Option String
  userEmail : Option String
  accessToken : String
  refreshToken : Option String
  mcpRefreshToken : Option String
  expiresAt : Nat
  mcpTokenExpiresAt : Option Nat
  tokenType : String
  scope : String
deriving Repr, DecidableEq

/-- `SessionManager.saveSession`: puts the session item with
`ttl = floor(now/1000) + 90 days`, `createdAt = updatedAt = now`, keyed by
`sessionId`; when `mcpRefreshToken` is present it also puts the refresh-index
item under `"refresh:" ++ mcpRefreshToken` with the same `ttl`. -/
def saveSession (now : Nat) (d : SaveSessionInput) (t : SessionTable) :
    SessionTable :=
  let ttl := now / 1000 + NINETY_DAYS
  let item : SessionData :=
    { sessionId := d.sessionId
      clientId := d.clientId
      userEmail := d.userEmail
      accessToken := d.accessToken
      refreshToken := d.refreshToken
      mcpRefreshToken := d.mcpRefreshToken
      expiresAt := d.expiresAt
      mcpTokenExpiresAt := d.mcpTokenExpiresAt
      tokenType := d.tokenType
      scope := d.scope
      ttl := ttl
      createdAt := now
      updatedAt := now }
  let t1 : SessionTable := { t with sessions := putKey d.sessionId item t.sessions }
  match d.mcpRefreshToken with
  | some rt =>
    { t1 with
      refreshIdx :=
        putKey ("refresh:" ++ rt)
          { accessTokenSessionId := d.sessionId
            ttl := ttl
            createdAt := now
            updatedAt := now } t1.refreshIdx }
  | none => t1

/-- `SessionManager.deleteSession`: unconditional delete by `sessionId`. -/
def deleteSession (sessionId : String) (t : SessionTable) : SessionTable :=
  { t with sessions := delKey sessionId t.sessions }

/-- `SessionManager.getSession`: returns the item keyed by `sessionId`
unless `session.expiresAt < Date.now()` (the upstream Google expiry), in which
case it deletes the item and returns `null`. The `mcpTokenExpiresAt`
attribute is never consulted. Returns the (possibly mutated) table alongside. -/
def getSession (now : Nat) (sessionId : String) (t : SessionTable) :
    Option SessionData × SessionTable :=
  match lookupKey sessionId t.sessions with
  | none => (none, t)
  | some session =>
    if session.expiresAt < now then
      (none, deleteSession sessionId t)
    else
      (some session, t)

/-- `SessionManager.updateAccessToken`: DynamoDB `UpdateCommand` setting
`accessToken`, `expiresAt`, `ttl = floor(now/1000) + 90 days`, `updatedAt`.
An `UpdateCommand` on an absent key upserts an item holding only the written
attributes; the absent attributes are modelled as empty/none with
`createdAt = 0`. -/
def updateAccessToken (now : Nat) (sessionId accessToken : String)
    (expiresAt : Nat) (t : SessionTable) : SessionTable :=
  let ttl := now / 1000 + NINETY_DAYS
  match lookupKey sessionId t.sessions with
  | some s =>
    { t with
      sessions :=
        putKey sessionId
          { s with
            accessToken := accessToken
            expiresAt := expiresAt
            ttl := ttl
            updatedAt := now } t.sessions }
  | none =>
    { t with
      sessions :=
        putKey sessionId
          { sessionId := sessionId
            clientId := none
            userEmail := none
            accessToken := accessToken
            refreshToken := none
            mcpRefreshToken := none
            expiresAt := expiresAt
            mcpTokenExpiresAt := none
            tokenType := ""
            scope := ""
            ttl := ttl
            createdAt := 0
            updatedAt := now } t.sessions }

/-- `SessionManager.getSessionByRefreshToken`: resolves the
`"refresh:" ++ refreshToken` index item, then delegates to `getSession` on the
recorded `accessTokenSessionId`; `null` when either hop misses. -/
def getSessionByRefreshToken (now : Nat) (refreshToken : String)
    (t : SessionTable) : Option SessionData × SessionTable :=
  match lookupKey ("refresh:" ++ refreshToken) t.refreshIdx with
  | none => (none, t)
  | some item => getSession now item.accessTokenSessionId t

/-- Modelled from the spec: `SessionManager.extendSession` is called by
`GoogleOAuthProvider.verifyAccessToken` (oauth-provider.ts line 308,
`extendSession(token, 30)`) but is absent from src/session-manager.ts.
Spec §4.2 `touch(sessionId, extensionDays)` "sets
`downstreamExpiresAt = now + extensionDays`"; the downstream-expiry attribute
on the stored record is `mcpTokenExpiresAt`, so the modelled operation sets
`mcpTokenExpiresAt := now + extensionDays` (days in milliseconds) on the
existing record, leaving an absent record untouched. -/
def extendSession (now : Nat) (sessionId : String) (extensionDays : Nat)
    (t : SessionTable) : SessionTable :=
  match lookupKey sessionId t.sessions with
  | some s =>
    { t with
      sessions :=
        putKey sessionId
          { s with
            mcpTokenExpiresAt := some (now + extensionDays * 24 * 60 * 60 * 1000) }
          t.sessions }
  | none => t

end SessionManager

/-- Helper for `jsSplit`: splits the remaining characters at every
occurrence of `c`, `acc` holding the current chunk reversed. -/
def jsSplitAux (c : Char) : List Char → List Char → List String
  | [], acc => [String.mk acc.reverse]
  | x :: xs, acc =>
    if x = c then String.mk acc.reverse :: jsSplitAux c xs []
    else jsSplitAux c xs (x :: acc)

/-- JavaScript `String.prototype.split` with a one-character separator
(`session.scope.split(' ')` in src/oauth-provider.ts), modelled by structural
recursion so it evaluates in the kernel (`String.splitOn` agrees on these
inputs but does not reduce definitionally). -/
def jsSplit (c : Char) (s : String) : List String := jsSplitAux c s.data []

/-! ## `GoogleOAuthProvider` (src/oauth-provider.ts) -/

/-- A failure raised by the upstream Google OAuth client
(`oauth2Client.refreshAccessToken()` / `oauth2Client.revokeToken()`): the
`kind` distinguishes an explicit revoked/invalid-grant response from a merely
transient failure. The provider's code never inspects it. -/
inductive UpstreamErrorKind where
  | revokedOrInvalid
  | transientFailure
deriving Repr, DecidableEq

/-- The `credentials` object returned by a successful
`oauth2Client.refreshAccessToken()`. -/
structure GoogleCredentials where
  access_token : Option String
  expiry_date : Option Nat
deriving Repr, DecidableEq

/-- The errors `GoogleOAuthProvider` can raise, one constructor per `throw`
site (the TS code throws `Error(...)` with the quoted message); the MCP
router surfaces the token-endpoint ones as `invalid_grant` and the
verification one as `Unauthorized`. `upstreamFailure` is an exception from
the Google client propagating uncaught out of `exchangeRefreshToken`. -/
inductive OAuthErr where
  | invalidAuthCode
  | googleAuthNotCompleted
  | invalidCodeVerifier
  | invalidRefreshToken
  | googleRefreshFailed
  | invalidAccessToken
  | upstreamFailure (kind : UpstreamErrorKind)
deriving Repr, DecidableEq

/-- The `OAuthTokens` object returned by the token-endpoint operations. -/
structure OAuthTokens where
  access_token : String
  token_type : String
  expires_in : Nat
  refresh_token : Option String
  scope : Option String
deriving Repr, DecidableEq

/-- The `AuthInfo` object returned by `verifyAccessToken`: exactly the three
fields the source constructs (oauth-provider.ts lines 311–315). -/
structure AuthInfo where
  token : String
  clientId : String
  scopes : List String
deriving Repr, DecidableEq

/-- The provider's two stores: the auth-code table and the sessions table. -/
structure ProviderState where
  authCodes : List (String × AuthorizationCodeData)
  sessions : SessionTable
deriving Repr, DecidableEq

namespace GoogleOAuthProvider

open AuthCodeStore SessionManager

/-- `expiresIn = 30 * 24 * 60 * 60` seconds (30 days), used by
`exchangeAuthorizationCode` and `exchangeRefreshToken`. -/
def expiresIn : Nat := 30 * 24 * 60 * 60

/-- `GoogleOAuthProvider.exchangeAuthorizationCode`.
`sha256b64url` stands for
`crypto.createHash('sha256').update(·).digest('base64url')`; `newAccessToken`
and `newMcpRefreshToken` are the two `crypto.randomBytes(32)` mints. Fails on
a missing/expired/foreign-client code, on missing Google tokens, and on a
PKCE digest mismatch; on success it saves a session only when the Google
tokens carry a `userEmail`, deletes the code record, and returns the
downstream token pair with the space-joined requested scopes. -/
def exchangeAuthorizationCode (now : Nat) (sha256b64url : String → String)
    (newAccessToken newMcpRefreshToken : String) (clientId : String)
    (authorizationCode : String) (codeVerifier : Option String)
    (st : ProviderState) : Except OAuthErr OAuthTokens × ProviderState :=
  let r := getAuthCode now authorizationCode st.authCodes
  let st1 : ProviderState := { st with authCodes := r.2 }
  match r.1 with
  | none => (.error .invalidAuthCode, st1)
  | some authData =>
    if authData.clientId ≠ clientId then
      (.error .invalidAuthCode, st1)
    else
      match authData.googleTokens with
      | none => (.error .googleAuthNotCompleted, st1)
      | some googleTokens =>
        if (match codeVerifier with
            | some v => sha256b64url v != authData.codeChallenge
            | none => false : Bool) then
          (.error .invalidCodeVerifier, st1)
        else
          let mcpTokenExpiresAt := now + expiresIn * 1000
          let sessions1 :=
            match googleTokens.userEmail with
            | some _ =>
              saveSession now
                { sessionId := newAccessToken
                  clientId := some clientId
                  userEmail := googleTokens.userEmail
                  accessToken := googleTokens.accessToken
                  refreshToken := googleTokens.refreshToken
                  mcpRefreshToken := some newMcpRefreshToken
                  expiresAt := googleTokens.expiresAt
                  mcpTokenExpiresAt := some mcpTokenExpiresAt
                  tokenType := "Bearer"
                  scope := "https://www.googleapis.com/auth/contacts.readonly" }
                st1.sessions
            | none => st1.sessions
          let authCodes2 := deleteAuthCode authorizationCode st1.authCodes
          (.ok
            { access_token := newAccessToken
              token_type := "Bearer"
              expires_in := expiresIn
              refresh_token := some newMcpRefreshToken
              scope := authData.scopes.map (String.intercalate " ") },
            { authCodes := authCodes2, sessions := sessions1 })

/-- `GoogleOAuthProvider.exchangeRefreshToken`.
`upstreamRefresh` is the outcome of `oauth2Client.refreshAccessToken()` on the
session's stored Google refresh token; `newAccessToken` is the fresh
`crypto.randomBytes(32)` mint. The upstream call sits outside any
`try`/`catch`, so an upstream failure of either kind propagates with the
session left in place. On success the old session's Google credentials are
updated in place and a brand-new session is saved under the new access token,
carrying the same MCP refresh token (which repoints the refresh index). -/
def exchangeRefreshToken (now : Nat) (newAccessToken : String)
    (upstreamRefresh : Except UpstreamErrorKind GoogleCredentials)
    (refreshToken : String) (st : ProviderState) :
    Except OAuthErr OAuthTokens × ProviderState :=
  let r := getSessionByRefreshToken now refreshToken st.sessions
  let st1 : ProviderState := { st with sessions := r.2 }
  match r.1 with
  | none => (.error .invalidRefreshToken, st1)
  | some session =>
    match upstreamRefresh with
    | .error kind => (.error (.upstreamFailure kind), st1)
    | .ok credentials =>
      match credentials.access_token with
      | none => (.error .googleRefreshFailed, st1)
      | some googleAccessToken =>
        let googleTokenExpiresAt := credentials.expiry_date.getD (now + 3600 * 1000)
        let mcpTokenExpiresAt := now + expiresIn * 1000
        let sessions2 :=
          updateAccessToken now session.sessionId googleAccessToken
            googleTokenExpiresAt st1.sessions
        let sessions3 :=
          saveSession now
            { sessionId := newAccessToken
              clientId := session.clientId
              userEmail := session.userEmail
              accessToken := googleAccessToken
              refreshToken := session.refreshToken
              mcpRefreshToken := some refreshToken
              expiresAt := googleTokenExpiresAt
              mcpTokenExpiresAt := some mcpTokenExpiresAt
              tokenType := "Bearer"
              scope := session.scope }
            sessions2
        (.ok
          { access_token := newAccessToken
            token_type := "Bearer"
            expires_in := expiresIn
            refresh_token := some refreshToken
            scope := some session.scope },
          { st1 with sessions := sessions3 })

/-- `GoogleOAuthProvider.verifyAccessToken`.
Resolves the session by the presented token (`getSession`), failing
`Unauthorized` when absent; when the stored Google token is within 5 minutes
of expiry and a Google refresh token exists, it attempts the upstream refresh
(`upstreamRefresh` is that call's outcome) and updates the stored Google
credentials on success, swallowing any failure; then it calls the
(spec-modelled) `extendSession token 30` and returns
`{token, clientId ?? 'unknown', scope.split(' ')}`. -/
def verifyAccessToken (now : Nat)
    (upstreamRefresh : Except UpstreamErrorKind GoogleCredentials)
    (token : String) (t : SessionTable) :
    Except OAuthErr AuthInfo × SessionTable :=
  let r := getSession now token t
  match r.1 with
  | none => (.error .invalidAccessToken, r.2)
  | some session =>
    let needsRefresh : Bool := (session.expiresAt : Int) - (now : Int) < 5 * 60 * 1000
    let t2 :=
      if needsRefresh && session.refreshToken.isSome then
        match upstreamRefresh with
        | .ok credentials =>
          match credentials.access_token with
          | some googleAccessToken =>
            updateAccessToken now token googleAccessToken
              (credentials.expiry_date.getD (now + 3600 * 1000)) r.2
          | none => r.2
        | .error _ => r.2
      else r.2
    let t3 := extendSession now token 30 t2
    (.ok
      { token := token
        clientId := session.clientId.getD "unknown"
        scopes := jsSplit ' ' session.scope },
      t3)

/-- `GoogleOAuthProvider.revokeToken`.
The whole body sits in one `try`/`catch` whose handler only logs: the
operation never fails the caller. Inside the `try`, the session is looked up
by the presented token; when found, the upstream
`oauth2Client.revokeToken(session.accessToken)` runs first (its outcome is
`upstreamRevoke`), and only if it does not throw does
`deleteSession(token)` run — an upstream throw jumps to the `catch`, skipping
the local delete. -/
def revokeToken (now : Nat) (upstreamRevoke : Except UpstreamErrorKind Unit)
    (token : String) (t : SessionTable) : SessionTable :=
  let r := getSession now token t
  match r.1 with
  | none => r.2
  | some _ =>
    match upstreamRevoke with
    | .error _ => r.2
    | .ok _ => deleteSession token r.2

end GoogleOAuthProvider

/-! ## Helper lemmas on the store operations -/

theorem getAuthCode_found (now : Nat) (code : String)
    (table : List (String × AuthorizationCodeData)) (d : AuthorizationCodeData)
    (hlook : lookupKey code table = some d)
    (hfresh : now - d.createdAt ≤ AuthCodeStore.TEN_MINUTES_MS) :
    AuthCodeStore.getAuthCode now code table = (some d, table) := by
  simp [AuthCodeStore.getAuthCode, hlook, Nat.not_lt.mpr hfresh]

theorem getSession_found (now : Nat) (sessionId : String) (t : SessionTable)
    (s : SessionData) (hlook : lookupKey sessionId t.sessions = some s)
    (hlive : now ≤ s.expiresAt) :
    SessionManager.getSession now sessionId t = (some s, t) := by
  simp [SessionManager.getSession, hlook, Nat.not_lt.mpr hlive]

theorem getSessionByRefreshToken_found (now : Nat) (refreshToken : String)
    (t : SessionTable) (idx : RefreshIndexItem) (s : SessionData)
    (hidx : lookupKey ("refresh:" ++ refreshToken) t.refreshIdx = some idx)
    (hlook : lookupKey idx.accessTokenSessionId t.sessions = some s)
    (hlive : now ≤ s.expiresAt) :
    SessionManager.getSessionByRefreshToken now refreshToken t = (some s, t) := by
  simp [SessionManager.getSessionByRefreshToken, hidx,
    getSession_found now idx.accessTokenSessionId t s hlook hlive]

/-! ## Claim theorems -/

/-- **C8.** Whenever a code verifier is supplied to
`exchangeAuthorizationCode` (and the code record is present, fresh, owned by
the requesting client, and completed with Google tokens), the call fails with
`Invalid code verifier` exactly when the SHA-256/base64url digest of the
verifier differs from the stored `codeChallenge`, and succeeds exactly when
the digest equals the stored challenge. -/
theorem pkce_verifier_gate (now : Nat) (hash : String → String)
    (aTok rTok clientId code v : String) (st : ProviderState)
    (d : AuthorizationCodeData) (g : GoogleTokens)
    (hlook : lookupKey code st.authCodes = some d)
    (hfresh : now - d.createdAt ≤ AuthCodeStore.TEN_MINUTES_MS)
    (hclient : d.clientId = clientId)
    (hg : d.googleTokens = some g) :
    ((GoogleOAuthProvider.exchangeAuthorizationCode now hash aTok rTok clientId
        code (some v) st).1 = .error .invalidCodeVerifier
      ↔ hash v ≠ d.codeChallenge) ∧
    ((∃ toks, (GoogleOAuthProvider.exchangeAuthorizationCode now hash aTok rTok
        clientId code (some v) st).1 = .ok toks)
      ↔ hash v = d.codeChallenge) := by
  have hget := getAuthCode_found now code st.authCodes d hlook hfresh
  by_cases hv : hash v = d.codeChallenge
  · constructor
    · simp [GoogleOAuthProvider.exchangeAuthorizationCode, hget, hclient, hg, hv]
    · simp [GoogleOAuthProvider.exchangeAuthorizationCode, hget, hclient, hg, hv]
  · constructor
    · simp [GoogleOAuthProvider.exchangeAuthorizationCode, hget, hclient, hg, hv]
    · simp [GoogleOAuthProvider.exchangeAuthorizationCode, hget, hclient, hg, hv]

/-- Fixture for the C8 witness: a completed, fresh authorization-code record
for client `c1` with challenge `ver#` under the digest `fun s => s ++ "#"`. -/
def pkceFixtureCode : AuthorizationCodeData :=
  { authCode := "code1"
    clientId := "c1"
    codeChallenge := "ver#"
    redirectUri := "https://client.example/cb"
    state := some "cs"
    googleAuthCode := some "gcode"
    googleTokens := some
      { accessToken := "gat"
        refreshToken := some "grt"
        expiresAt := 5000000
        userEmail := some "alice@example.com" }
    scopes := some ["contacts.readonly"]
    createdAt := 1000
    ttl := 601 }

/-- Fixture provider state for the C8 witness. -/
def pkceFixtureSt : ProviderState :=
  { authCodes := [("code1", pkceFixtureCode)], sessions := { sessions := [], refreshIdx := [] } }

/-- C8 witness: `pkce_verifier_gate` applied at a concrete state. -/
theorem pkce_verifier_gate_witness :
    ((GoogleOAuthProvider.exchangeAuthorizationCode 2000 (fun s => s ++ "#")
        "at1" "rt1" "c1" "code1" (some "ver") pkceFixtureSt).1
          = .error .invalidCodeVerifier
      ↔ (fun s => s ++ "#") "ver" ≠ pkceFixtureCode.codeChallenge) ∧
    ((∃ toks, (GoogleOAuthProvider.exchangeAuthorizationCode 2000
        (fun s => s ++ "#") "at1" "rt1" "c1" "code1" (some "ver")
        pkceFixtureSt).1 = .ok toks)
      ↔ (fun s => s ++ "#") "ver" = pkceFixtureCode.codeChallenge) :=
  pkce_verifier_gate 2000 (fun s => s ++ "#") "at1" "rt1" "c1" "code1" "ver"
    pkceFixtureSt pkceFixtureCode
    { accessToken := "gat"
      refreshToken := some "grt"
      expiresAt := 5000000
      userEmail := some "alice@example.com" }
    rfl (by decide) rfl rfl

/-- **C6.** Single use of an authorization code: for a fresh, completed
record whose client matches and whose verifier (when supplied) hashes to the
stored challenge, the first `exchangeAuthorizationCode` succeeds, the code
record is gone from the resulting state (`getAuthCode` returns absent at any
later time), and a second call with the same code — at any time, by any
client, with any verifier — fails with `Invalid authorization code`. -/
theorem exchangeCode_single_use (now now2 : Nat) (hash : String → String)
    (aTok rTok aTok2 rTok2 clientId clientId2 code : String)
    (codeVerifier codeVerifier2 : Option String) (st : ProviderState)
    (d : AuthorizationCodeData) (g : GoogleTokens)
    (hlook : lookupKey code st.authCodes = some d)
    (hfresh : now - d.createdAt ≤ AuthCodeStore.TEN_MINUTES_MS)
    (hclient : d.clientId = clientId)
    (hg : d.googleTokens = some g)
    (hverif : ∀ v, codeVerifier = some v → hash v = d.codeChallenge) :
    (∃ toks, (GoogleOAuthProvider.exchangeAuthorizationCode now hash aTok rTok
        clientId code codeVerifier st).1 = .ok toks) ∧
    (AuthCodeStore.getAuthCode now2 code
        (GoogleOAuthProvider.exchangeAuthorizationCode now hash aTok rTok
          clientId code codeVerifier st).2.authCodes).1 = none ∧
    (GoogleOAuthProvider.exchangeAuthorizationCode now2 hash aTok2 rTok2
        clientId2 code codeVerifier2
        (GoogleOAuthProvider.exchangeAuthorizationCode now hash aTok rTok
          clientId code codeVerifier st).2).1 = .error .invalidAuthCode := by
  have hget := getAuthCode_found now code st.authCodes d hlook hfresh
  have hrun :
      (GoogleOAuthProvider.exchangeAuthorizationCode now hash aTok rTok
        clientId code codeVerifier st).2.authCodes
        = AuthCodeStore.deleteAuthCode code st.authCodes ∧
      (∃ toks, (GoogleOAuthProvider.exchangeAuthorizationCode now hash aTok rTok
        clientId code codeVerifier st).1 = .ok toks) := by
    cases codeVerifier with
    | none =>
      constructor
      · simp [GoogleOAuthProvider.exchangeAuthorizationCode, hget, hclient, hg]
      · exact ⟨_, by
          simp [GoogleOAuthProvider.exchangeAuthorizationCode, hget, hclient, hg]
          rfl⟩
    | some v =>
      have hv := hverif v rfl
      constructor
      · simp [GoogleOAuthProvider.exchangeAuthorizationCode, hget, hclient, hg, hv]
      · exact ⟨_, by
          simp [GoogleOAuthProvider.exchangeAuthorizationCode, hget, hclient, hg, hv]
          rfl⟩
  have hgone : lookupKey code (GoogleOAuthProvider.exchangeAuthorizationCode
      now hash aTok rTok clientId code codeVerifier st).2.authCodes = none := by
    rw [hrun.1]
    exact lookupKey_delKey_self code st.authCodes
  refine ⟨hrun.2, ?_, ?_⟩
  · simp [AuthCodeStore.getAuthCode, hgone]
  · generalize hst2 : (GoogleOAuthProvider.exchangeAuthorizationCode now hash
      aTok rTok clientId code codeVerifier st).2 = st2 at hgone
    simp [GoogleOAuthProvider.exchangeAuthorizationCode,
      AuthCodeStore.getAuthCode, hgone]

/-- Fixture provider state for the C6 witness (same record shape as C8's,
distinct binding so the two claims stay independent). -/
def singleUseFixtureSt : ProviderState :=
  { authCodes :=
      [("codeA",
        { authCode := "codeA"
          clientId := "c1"
          codeChallenge := "verA#"
          redirectUri := "https://client.example/cb"
          state := none
          googleAuthCode := some "gcodeA"
          googleTokens := some
            { accessToken := "gatA"
              refreshToken := some "grtA"
              expiresAt := 5000000
              userEmail := some "alice@example.com" }
          scopes := some ["contacts.readonly"]
          createdAt := 1000
          ttl := 601 })],
    sessions := { sessions := [], refreshIdx := [] } }

/-- C6 witness: `exchangeCode_single_use` applied at a concrete state with a
matching verifier. -/
theorem exchangeCode_single_use_witness :
    (∃ toks, (GoogleOAuthProvider.exchangeAuthorizationCode 2000
        (fun s => s ++ "#") "atA" "rtA" "c1" "codeA" (some "verA")
        singleUseFixtureSt).1 = .ok toks) ∧
    (AuthCodeStore.getAuthCode 9000 "codeA"
        (GoogleOAuthProvider.exchangeAuthorizationCode 2000 (fun s => s ++ "#")
          "atA" "rtA" "c1" "codeA" (some "verA")
          singleUseFixtureSt).2.authCodes).1 = none ∧
    (GoogleOAuthProvider.exchangeAuthorizationCode 9000 (fun s => s ++ "#")
        "atB" "rtB" "c1" "codeA" (some "verA")
        (GoogleOAuthProvider.exchangeAuthorizationCode 2000 (fun s => s ++ "#")
          "atA" "rtA" "c1" "codeA" (some "verA")
          singleUseFixtureSt).2).1 = .error .invalidAuthCode :=
  exchangeCode_single_use 2000 9000 (fun s => s ++ "#") "atA" "rtA" "atB" "rtB"
    "c1" "c1" "codeA" (some "verA") (some "verA") singleUseFixtureSt _
    { accessToken := "gatA"
      refreshToken := some "grtA"
      expiresAt := 5000000
      userEmail := some "alice@example.com" }
    rfl (by decide) rfl rfl (by intro v hv; cases hv; rfl)

/-- **C9.** `updateWithGoogleTokens` (the `complete` step of the handshake)
fails with not-found semantics when the record is absent or expired
(`getAuthCode` returns absent), and otherwise overwrites only
`googleAuthCode` and `googleTokens`: the stored record equals the old record
with exactly those two fields replaced — `createdAt`, `ttl`,
`codeChallenge`, `redirectUri`, `state`, `scopes`, `clientId` all unchanged,
so completion never extends the record's life — and no other key of the
table is touched. -/
theorem complete_overwrites_only_upstream_fields (now : Nat) (code u : String)
    (g : GoogleTokens) (table : List (String × AuthorizationCodeData)) :
    ((AuthCodeStore.getAuthCode now code table).1 = none →
      (AuthCodeStore.updateWithGoogleTokens now code u g table).1 = false) ∧
    (∀ d, (AuthCodeStore.getAuthCode now code table).1 = some d →
      (AuthCodeStore.updateWithGoogleTokens now code u g table).1 = true ∧
      lookupKey code (AuthCodeStore.updateWithGoogleTokens now code u g table).2
        = some { d with googleAuthCode := some u, googleTokens := some g } ∧
      ∀ k, k ≠ code →
        lookupKey k (AuthCodeStore.updateWithGoogleTokens now code u g table).2
          = lookupKey k table) := by
  cases hl : lookupKey code table with
  | none =>
    constructor
    · intro _
      simp [AuthCodeStore.updateWithGoogleTokens, AuthCodeStore.getAuthCode, hl]
    · intro d hd
      simp [AuthCodeStore.getAuthCode, hl] at hd
  | some d0 =>
    by_cases hex : now - d0.createdAt > AuthCodeStore.TEN_MINUTES_MS
    · constructor
      · intro _
        simp [AuthCodeStore.updateWithGoogleTokens, AuthCodeStore.getAuthCode,
          hl, hex]
      · intro d hd
        simp [AuthCodeStore.getAuthCode, hl, hex] at hd
    · constructor
      · intro h
        simp [AuthCodeStore.getAuthCode, hl, hex] at h
      · intro d hd
        simp [AuthCodeStore.getAuthCode, hl, hex] at hd
        subst hd
        refine ⟨?_, ?_, ?_⟩
        · simp [AuthCodeStore.updateWithGoogleTokens, AuthCodeStore.getAuthCode,
            hl, hex]
        · simp [AuthCodeStore.updateWithGoogleTokens, AuthCodeStore.getAuthCode,
            hl, hex, lookupKey_putKey_self]
        · intro k hk
          simp [AuthCodeStore.updateWithGoogleTokens, AuthCodeStore.getAuthCode,
            hl, hex, lookupKey_putKey_ne code k _ hk]

/-- Fixture record for the C9 witness: an uncompleted, fresh
authorization-code record. -/
def completeFixtureCode : AuthorizationCodeData :=
  { authCode := "codeC"
    clientId := "c9"
    codeChallenge := "chalC"
    redirectUri := "https://client.example/cb"
    state := some "sC"
    googleAuthCode := none
    googleTokens := none
    scopes := some ["contacts.readonly"]
    createdAt := 1000
    ttl := 601 }

/-- Fixture Google tokens for the C9 witness. -/
def completeFixtureTokens : GoogleTokens :=
  { accessToken := "gatC"
    refreshToken := some "grtC"
    expiresAt := 3600000
    userEmail := some "carol@example.com" }

/-- C9 witness: `complete_overwrites_only_upstream_fields` applied at a
concrete fresh record. -/
theorem complete_overwrites_only_upstream_fields_witness :
    (AuthCodeStore.updateWithGoogleTokens 2000 "codeC" "gAuthC"
        completeFixtureTokens [("codeC", completeFixtureCode)]).1 = true ∧
    lookupKey "codeC" (AuthCodeStore.updateWithGoogleTokens 2000 "codeC"
        "gAuthC" completeFixtureTokens [("codeC", completeFixtureCode)]).2
      = some { completeFixtureCode with
                googleAuthCode := some "gAuthC"
                googleTokens := some completeFixtureTokens } ∧
    ∀ k, k ≠ "codeC" →
      lookupKey k (AuthCodeStore.updateWithGoogleTokens 2000 "codeC" "gAuthC"
          completeFixtureTokens [("codeC", completeFixtureCode)]).2
        = lookupKey k [("codeC", completeFixtureCode)] :=
  (complete_overwrites_only_upstream_fields 2000 "codeC" "gAuthC"
      completeFixtureTokens [("codeC", completeFixtureCode)]).2
    completeFixtureCode (by decide)

/-- **C10.** Durable 90-day store TTL: `saveSession` stamps the session item
— and, when a downstream refresh value is present, the refresh-index item —
with `ttl = floor(now/1000) + 90 days`, and `updateAccessToken` re-stamps the
session's `ttl` to 90 days from its own `now`; the stamped value is the same
for every input `expiresAt` / `mcpTokenExpiresAt`, i.e. independent of the
upstream token expiry and of the 30-day downstream window. -/
theorem durable_ttl_ninety_days (now now2 gExp : Nat)
    (d : SessionManager.SaveSessionInput) (t : SessionTable) (aTok : String) :
    ((lookupKey d.sessionId (SessionManager.saveSession now d t).sessions).map
        SessionData.ttl = some (now / 1000 + SessionManager.NINETY_DAYS)) ∧
    (∀ rt, d.mcpRefreshToken = some rt →
      (lookupKey ("refresh:" ++ rt)
          (SessionManager.saveSession now d t).refreshIdx).map
        RefreshIndexItem.ttl = some (now / 1000 + SessionManager.NINETY_DAYS)) ∧
    (∀ s, lookupKey d.sessionId t.sessions = some s →
      (lookupKey d.sessionId
          (SessionManager.updateAccessToken now2 d.sessionId aTok gExp t).sessions).map
        SessionData.ttl = some (now2 / 1000 + SessionManager.NINETY_DAYS)) := by
  refine ⟨?_, ?_, ?_⟩
  · cases hrt : d.mcpRefreshToken with
    | none => simp [SessionManager.saveSession, hrt, lookupKey_putKey_self]
    | some rt => simp [SessionManager.saveSession, hrt, lookupKey_putKey_self]
  · intro rt hrt
    simp [SessionManager.saveSession, hrt, lookupKey_putKey_self]
  · intro s hs
    simp [SessionManager.updateAccessToken, hs, lookupKey_putKey_self]

/-- Fixture session for the C10 witness. -/
def ttlFixtureSession : SessionData :=
  { sessionId := "tokT"
    clientId := some "c10"
    userEmail := some "dora@example.com"
    accessToken := "gatT"
    refreshToken := some "grtT"
    mcpRefreshToken := some "rtT"
    expiresAt := 3600000
    mcpTokenExpiresAt := some 2592000000
    tokenType := "Bearer"
    scope := "contacts.readonly"
    ttl := 7776001
    createdAt := 1000
    updatedAt := 1000 }

/-- C10 witness: `durable_ttl_ninety_days` applied at a concrete save input
carrying a refresh value, over a table already holding the session. -/
theorem durable_ttl_ninety_days_witness :
    ((lookupKey "tokT" (SessionManager.saveSession 5000
        { sessionId := "tokT", clientId := some "c10",
          userEmail := some "dora@example.com", accessToken := "gatT",
          refreshToken := some "grtT", mcpRefreshToken := some "rtT",
          expiresAt := 3600000, mcpTokenExpiresAt := some 2592000000,
          tokenType := "Bearer", scope := "contacts.readonly" }
        { sessions := [("tokT", ttlFixtureSession)], refreshIdx := [] }).sessions).map
      SessionData.ttl = some (5000 / 1000 + SessionManager.NINETY_DAYS)) ∧
    ((lookupKey ("refresh:" ++ "rtT") (SessionManager.saveSession 5000
        { sessionId := "tokT", clientId := some "c10",
          userEmail := some "dora@example.com", accessToken := "gatT",
          refreshToken := some "grtT", mcpRefreshToken := some "rtT",
          expiresAt := 3600000, mcpTokenExpiresAt := some 2592000000,
          tokenType := "Bearer", scope := "contacts.readonly" }
        { sessions := [("tokT", ttlFixtureSession)], refreshIdx := [] }).refreshIdx).map
      RefreshIndexItem.ttl = some (5000 / 1000 + SessionManager.NINETY_DAYS)) ∧
    ((lookupKey "tokT" (SessionManager.updateAccessToken 9000 "tokT" "gatT2"
        7200000
        { sessions := [("tokT", ttlFixtureSession)], refreshIdx := [] }).sessions).map
      SessionData.ttl = some (9000 / 1000 + SessionManager.NINETY_DAYS)) := by
  have h := durable_ttl_ninety_days 5000 9000 7200000
    { sessionId := "tokT", clientId := some "c10",
      userEmail := some "dora@example.com", accessToken := "gatT",
      refreshToken := some "grtT", mcpRefreshToken := some "rtT",
      expiresAt := 3600000, mcpTokenExpiresAt := some 2592000000,
      tokenType := "Bearer", scope := "contacts.readonly" }
    { sessions := [("tokT", ttlFixtureSession)], refreshIdx := [] } "gatT2"
  exact ⟨h.1, h.2.1 "rtT" rfl, h.2.2 ttlFixtureSession (by decide)⟩

/-- Fixture session for C2: its upstream Google token expired at 1 hour
(`expiresAt = 3600000`) while its downstream (MCP) expiry is 30 days away
(`mcpTokenExpiresAt = 2592000000`). -/
def lapseFixtureSession : SessionData :=
  { sessionId := "tokX"
    clientId := some "c1"
    userEmail := some "erin@example.com"
    accessToken := "gatX"
    refreshToken := some "grtX"
    mcpRefreshToken := some "rtX"
    expiresAt := 3600000
    mcpTokenExpiresAt := some 2592000000
    tokenType := "Bearer"
    scope := "contacts.readonly"
    ttl := 7776000
    createdAt := 0
    updatedAt := 0 }

/-- Fixture table for C2. -/
def lapseFixtureTable : SessionTable :=
  { sessions := [("tokX", lapseFixtureSession)], refreshIdx := [] }

/-- **C2** (code evaluated at the failing input). One day
(`now = 86400000 ms`) after issuance — far inside the 30-day downstream
window recorded in `mcpTokenExpiresAt` — `getSession` deletes the record and
returns absent, and `verifyAccessToken` fails, because
`SessionManager.getSession` compares `now` against `expiresAt` (the upstream
Google token expiry, about one hour) and never reads `mcpTokenExpiresAt`.
So a session verified once and next verified a day later has already lapsed,
contrary to the claimed 30-day sliding window. -/
theorem getSession_checks_upstream_expiry :
    lookupKey "tokX" lapseFixtureTable.sessions = some lapseFixtureSession ∧
    lapseFixtureSession.mcpTokenExpiresAt = some 2592000000 ∧
    86400000 < 2592000000 ∧
    (SessionManager.getSession 86400000 "tokX" lapseFixtureTable).1 = none ∧
    lookupKey "tokX"
      ((SessionManager.getSession 86400000 "tokX" lapseFixtureTable).2).sessions
      = none ∧
    (GoogleOAuthProvider.verifyAccessToken 86400000
        (.error .transientFailure) "tokX" lapseFixtureTable).1
      = .error .invalidAccessToken := by
  refine ⟨rfl, rfl, by norm_num, rfl, ?_, rfl⟩
  show lookupKey "tokX" (delKey "tokX" lapseFixtureTable.sessions) = none
  exact lookupKey_delKey_self "tokX" lapseFixtureTable.sessions

/-- **C5** (counterexample to the claim as stated). A token resolving to a
live session is revoked while the upstream Google revocation fails: the
exception jumps to the `catch` before `deleteSession` runs, so the
`SessionRecord` is NOT deleted — the claim's "deletes that SessionRecord even
when the upstream revocation call fails" is false on the code. -/
theorem revoke_upstream_failure_skips_delete :
    lookupKey "tokZ"
      (GoogleOAuthProvider.revokeToken 1000 (.error .transientFailure) "tokZ"
        { sessions :=
            [("tokZ",
              { sessionId := "tokZ"
                clientId := some "c5"
                userEmail := some "faye@example.com"
                accessToken := "gatZ"
                refreshToken := some "grtZ"
                mcpRefreshToken := some "rtZ"
                expiresAt := 3600000
                mcpTokenExpiresAt := some 2592000000
                tokenType := "Bearer"
                scope := "contacts.readonly"
                ttl := 7776000
                createdAt := 0
                updatedAt := 0 })],
          refreshIdx := [] }).sessions
      = some
          { sessionId := "tokZ"
            clientId := some "c5"
            userEmail := some "faye@example.com"
            accessToken := "gatZ"
            refreshToken := some "grtZ"
            mcpRefreshToken := some "rtZ"
            expiresAt := 3600000
            mcpTokenExpiresAt := some 2592000000
            tokenType := "Bearer"
            scope := "contacts.readonly"
            ttl := 7776000
            createdAt := 0
            updatedAt := 0 } := by
  rfl

/-- **C5 amended.** `revokeToken` never fails the caller (it is total; every
outcome of the upstream call is absorbed), and for a token resolving to a
live session it deletes the `SessionRecord` exactly when the upstream
revocation succeeds: on upstream success the record is gone, on upstream
failure of either kind the table is returned unchanged — the upstream
failure aborts the local cleanup. -/
theorem revoke_deletes_iff_upstream_ok (now : Nat) (tok : String)
    (t : SessionTable) (s : SessionData) (kind : UpstreamErrorKind)
    (hlook : lookupKey tok t.sessions = some s)
    (hlive : now ≤ s.expiresAt) :
    lookupKey tok
      (GoogleOAuthProvider.revokeToken now (.ok ()) tok t).sessions = none ∧
    GoogleOAuthProvider.revokeToken now (.error kind) tok t = t := by
  have hg := getSession_found now tok t s hlook hlive
  constructor
  · simp [GoogleOAuthProvider.revokeToken, hg, SessionManager.deleteSession,
      lookupKey_delKey_self]
  · simp [GoogleOAuthProvider.revokeToken, hg]

/-- Fixture session for the C5 witness. -/
def revokeFixtureSession : SessionData :=
  { sessionId := "tokV"
    clientId := some "c5"
    userEmail := some "gina@example.com"
    accessToken := "gatV"
    refreshToken := some "grtV"
    mcpRefreshToken := some "rtV"
    expiresAt := 3600000
    mcpTokenExpiresAt := some 2592000000
    tokenType := "Bearer"
    scope := "contacts.readonly"
    ttl := 7776000
    createdAt := 0
    updatedAt := 0 }

/-- C5 witness: `revoke_deletes_iff_upstream_ok` applied at a concrete live
session. -/
theorem revoke_deletes_iff_upstream_ok_witness :
    lookupKey "tokV"
      (GoogleOAuthProvider.revokeToken 1000 (.ok ()) "tokV"
        { sessions := [("tokV", revokeFixtureSession)], refreshIdx := [] }).sessions
      = none ∧
    GoogleOAuthProvider.revokeToken 1000 (.error .transientFailure) "tokV"
        { sessions := [("tokV", revokeFixtureSession)], refreshIdx := [] }
      = { sessions := [("tokV", revokeFixtureSession)], refreshIdx := [] } :=
  revoke_deletes_iff_upstream_ok 1000 "tokV"
    { sessions := [("tokV", revokeFixtureSession)], refreshIdx := [] }
    revokeFixtureSession .transientFailure rfl (by decide)

/-- Fixture for C4: a refresh-index entry resolving to a live session. -/
def refreshFailFixtureSession : SessionData :=
  { sessionId := "tokY"
    clientId := some "c4"
    userEmail := some "hugo@example.com"
    accessToken := "gatY"
    refreshToken := some "grtY"
    mcpRefreshToken := some "rtY"
    expiresAt := 3600000
    mcpTokenExpiresAt := some 2592000000
    tokenType := "Bearer"
    scope := "contacts.readonly"
    ttl := 7776000
    createdAt := 0
    updatedAt := 0 }

/-- Fixture provider state for C4. -/
def refreshFailFixtureSt : ProviderState :=
  { authCodes := []
    sessions :=
      { sessions := [("tokY", refreshFailFixtureSession)]
        refreshIdx :=
          [("refresh:rtY",
            { accessTokenSessionId := "tokY", ttl := 7776000,
              createdAt := 0, updatedAt := 0 })] } }

/-- **C4** (counterexample to the claim as stated). The upstream provider
explicitly reports the refresh token as revoked/invalid, yet
`exchangeRefreshToken` does NOT delete the session: the upstream call sits
outside any `try`/`catch`, the error propagates, and the session record is
still present afterwards — refuting "the session record is deleted …
if and only if the upstream provider explicitly reports the refresh token as
revoked/invalid". -/
theorem refresh_revoked_leaves_session :
    (GoogleOAuthProvider.exchangeRefreshToken 1000 "newTokY"
        (.error .revokedOrInvalid) "rtY" refreshFailFixtureSt).1
      = .error (.upstreamFailure .revokedOrInvalid) ∧
    lookupKey "tokY"
      (GoogleOAuthProvider.exchangeRefreshToken 1000 "newTokY"
        (.error .revokedOrInvalid) "rtY" refreshFailFixtureSt).2.sessions.sessions
      = some refreshFailFixtureSession := by
  exact ⟨rfl, rfl⟩

/-- **C4 amended.** When the upstream token refresh inside
`exchangeRefreshToken` fails — whether the upstream explicitly reports the
refresh token revoked/invalid or the failure is merely transient — the
session record is never deleted: the upstream error propagates and the whole
provider state is returned exactly unchanged. -/
theorem refresh_upstream_failure_preserves_state (now : Nat)
    (aNew rt : String) (kind : UpstreamErrorKind) (st : ProviderState)
    (idx : RefreshIndexItem) (s : SessionData)
    (hidx : lookupKey ("refresh:" ++ rt) st.sessions.refreshIdx = some idx)
    (hlook : lookupKey idx.accessTokenSessionId st.sessions.sessions = some s)
    (hlive : now ≤ s.expiresAt) :
    GoogleOAuthProvider.exchangeRefreshToken now aNew (.error kind) rt st
      = (.error (.upstreamFailure kind), st) := by
  simp [GoogleOAuthProvider.exchangeRefreshToken,
    getSessionByRefreshToken_found now rt st.sessions idx s hidx hlook hlive]

/-- C4 witness: `refresh_upstream_failure_preserves_state` applied at the
concrete fixture with a transient upstream failure. -/
theorem refresh_upstream_failure_preserves_state_witness :
    GoogleOAuthProvider.exchangeRefreshToken 1000 "newTokY"
        (.error .transientFailure) "rtY" refreshFailFixtureSt
      = (.error (.upstreamFailure .transientFailure), refreshFailFixtureSt) :=
  refresh_upstream_failure_preserves_state 1000 "newTokY" "rtY"
    .transientFailure refreshFailFixtureSt
    { accessTokenSessionId := "tokY", ttl := 7776000,
      createdAt := 0, updatedAt := 0 }
    refreshFailFixtureSession rfl rfl (by decide)

/-- Fixture for the C3 counterexample: a fresh, completed authorization-code
record whose Google tokens carry NO `userEmail`. -/
def noEmailFixtureSt : ProviderState :=
  { authCodes :=
      [("codeN",
        { authCode := "codeN"
          clientId := "c3"
          codeChallenge := "verN#"
          redirectUri := "https://client.example/cb"
          state := none
          googleAuthCode := some "gcodeN"
          googleTokens := some
            { accessToken := "gatN"
              refreshToken := some "grtN"
              expiresAt := 3600000
              userEmail := none }
          scopes := some ["contacts.readonly"]
          createdAt := 1000
          ttl := 601 })]
    sessions := { sessions := [], refreshIdx := [] } }

/-- **C3** (counterexample to the claim as stated). On a completed record
whose upstream credentials are present (but carry no subject identifier),
with matching client and verifier, `exchangeAuthorizationCode` happily
returns a fresh downstream credential pair and deletes the code record — but
saves NO `SessionRecord` at all (the sessions table stays empty), because the
save is guarded by `if (authData.googleTokens.userEmail)`. The returned
access token is therefore unverifiable. -/
theorem exchangeCode_no_session_saved_without_email :
    (GoogleOAuthProvider.exchangeAuthorizationCode 2000 (fun s => s ++ "#")
        "atN" "rtN" "c3" "codeN" (some "verN") noEmailFixtureSt).1
      = .ok { access_token := "atN", token_type := "Bearer",
              expires_in := GoogleOAuthProvider.expiresIn,
              refresh_token := some "rtN",
              scope := some "contacts.readonly" } ∧
    (GoogleOAuthProvider.exchangeAuthorizationCode 2000 (fun s => s ++ "#")
        "atN" "rtN" "c3" "codeN" (some "verN") noEmailFixtureSt).2.sessions.sessions
      = [] ∧
    lookupKey "atN"
      (GoogleOAuthProvider.exchangeAuthorizationCode 2000 (fun s => s ++ "#")
        "atN" "rtN" "c3" "codeN" (some "verN") noEmailFixtureSt).2.sessions.sessions
      = none ∧
    lookupKey "codeN"
      (GoogleOAuthProvider.exchangeAuthorizationCode 2000 (fun s => s ++ "#")
        "atN" "rtN" "c3" "codeN" (some "verN") noEmailFixtureSt).2.authCodes
      = none := by
  exact ⟨rfl, rfl, rfl, rfl⟩

/-- **C3 amended.** For every fresh authorization-code record whose upstream
credentials are present AND carry a subject identifier (`userEmail`), whose
`clientId` matches, and whose verifier (when supplied) hashes to the stored
challenge: `exchangeAuthorizationCode` returns the freshly minted downstream
pair with the space-joined granted scopes, saves a `SessionRecord` keyed by
the new access value (with the refresh-index entry), and deletes the
authorization-code record. -/
theorem exchangeCode_success_with_email (now : Nat) (hash : String → String)
    (aTok rTok clientId code : String) (codeVerifier : Option String)
    (st : ProviderState) (d : AuthorizationCodeData) (g : GoogleTokens)
    (e : String)
    (hlook : lookupKey code st.authCodes = some d)
    (hfresh : now - d.createdAt ≤ AuthCodeStore.TEN_MINUTES_MS)
    (hclient : d.clientId = clientId)
    (hg : d.googleTokens = some g)
    (hemail : g.userEmail = some e)
    (hverif : ∀ v, codeVerifier = some v → hash v = d.codeChallenge) :
    (GoogleOAuthProvider.exchangeAuthorizationCode now hash aTok rTok clientId
        code codeVerifier st).1
      = .ok { access_token := aTok, token_type := "Bearer",
              expires_in := GoogleOAuthProvider.expiresIn,
              refresh_token := some rTok,
              scope := d.scopes.map (String.intercalate " ") } ∧
    lookupKey aTok (GoogleOAuthProvider.exchangeAuthorizationCode now hash
        aTok rTok clientId code codeVerifier st).2.sessions.sessions
      = some
          { sessionId := aTok
            clientId := some clientId
            userEmail := some e
            accessToken := g.accessToken
            refreshToken := g.refreshToken
            mcpRefreshToken := some rTok
            expiresAt := g.expiresAt
            mcpTokenExpiresAt := some (now + GoogleOAuthProvider.expiresIn * 1000)
            tokenType := "Bearer"
            scope := "https://www.googleapis.com/auth/contacts.readonly"
            ttl := now / 1000 + SessionManager.NINETY_DAYS
            createdAt := now
            updatedAt := now } ∧
    lookupKey ("refresh:" ++ rTok) (GoogleOAuthProvider.exchangeAuthorizationCode
        now hash aTok rTok clientId code codeVerifier st).2.sessions.refreshIdx
      = some
          { accessTokenSessionId := aTok
            ttl := now / 1000 + SessionManager.NINETY_DAYS
            createdAt := now
            updatedAt := now } ∧
    lookupKey code (GoogleOAuthProvider.exchangeAuthorizationCode now hash
        aTok rTok clientId code codeVerifier st).2.authCodes = none := by
  have hget := getAuthCode_found now code st.authCodes d hlook hfresh
  cases codeVerifier with
  | none =>
    refine ⟨?_, ?_, ?_, ?_⟩ <;>
      simp [GoogleOAuthProvider.exchangeAuthorizationCode, hget, hclient, hg,
        hemail, SessionManager.saveSession, AuthCodeStore.deleteAuthCode,
        lookupKey_putKey_self, lookupKey_delKey_self]
  | some v =>
    have hv := hverif v rfl
    refine ⟨?_, ?_, ?_, ?_⟩ <;>
      simp [GoogleOAuthProvider.exchangeAuthorizationCode, hget, hclient, hg,
        hemail, hv, SessionManager.saveSession, AuthCodeStore.deleteAuthCode,
        lookupKey_putKey_self, lookupKey_delKey_self]

/-- Fixture for the C3 witness: same record but with a `userEmail`. -/
def withEmailFixtureSt : ProviderState :=
  { authCodes :=
      [("codeM",
        { authCode := "codeM"
          clientId := "c3"
          codeChallenge := "verM#"
          redirectUri := "https://client.example/cb"
          state := none
          googleAuthCode := some "gcodeM"
          googleTokens := some
            { accessToken := "gatM"
              refreshToken := some "grtM"
              expiresAt := 3600000
              userEmail := some "mia@example.com" }
          scopes := some ["contacts.readonly"]
          createdAt := 1000
          ttl := 601 })]
    sessions := { sessions := [], refreshIdx := [] } }

/-- C3 witness: `exchangeCode_success_with_email` applied at the concrete
completed record carrying a `userEmail`. -/
theorem exchangeCode_success_with_email_witness :
    (GoogleOAuthProvider.exchangeAuthorizationCode 2000 (fun s => s ++ "#")
        "atM" "rtM" "c3" "codeM" (some "verM") withEmailFixtureSt).1
      = .ok { access_token := "atM", token_type := "Bearer",
              expires_in := GoogleOAuthProvider.expiresIn,
              refresh_token := some "rtM",
              scope := (some ["contacts.readonly"] : Option (List String)).map
                (String.intercalate " ") } ∧
    lookupKey "atM"
      (GoogleOAuthProvider.exchangeAuthorizationCode 2000 (fun s => s ++ "#")
        "atM" "rtM" "c3" "codeM" (some "verM")
        withEmailFixtureSt).2.sessions.sessions
      = some
          { sessionId := "atM"
            clientId := some "c3"
            userEmail := some "mia@example.com"
            accessToken := "gatM"
            refreshToken := some "grtM"
            mcpRefreshToken := some "rtM"
            expiresAt := 3600000
            mcpTokenExpiresAt := some (2000 + GoogleOAuthProvider.expiresIn * 1000)
            tokenType := "Bearer"
            scope := "https://www.googleapis.com/auth/contacts.readonly"
            ttl := 2000 / 1000 + SessionManager.NINETY_DAYS
            createdAt := 2000
            updatedAt := 2000 } ∧
    lookupKey ("refresh:" ++ "rtM")
      (GoogleOAuthProvider.exchangeAuthorizationCode 2000 (fun s => s ++ "#")
        "atM" "rtM" "c3" "codeM" (some "verM")
        withEmailFixtureSt).2.sessions.refreshIdx
      = some
          { accessTokenSessionId := "atM"
            ttl := 2000 / 1000 + SessionManager.NINETY_DAYS
            createdAt := 2000
            updatedAt := 2000 } ∧
    lookupKey "codeM"
      (GoogleOAuthProvider.exchangeAuthorizationCode 2000 (fun s => s ++ "#")
        "atM" "rtM" "c3" "codeM" (some "verM")
        withEmailFixtureSt).2.authCodes = none :=
  exchangeCode_success_with_email 2000 (fun s => s ++ "#") "atM" "rtM" "c3"
    "codeM" (some "verM") withEmailFixtureSt _
    { accessToken := "gatM"
      refreshToken := some "grtM"
      expiresAt := 3600000
      userEmail := some "mia@example.com" }
    "mia@example.com" rfl (by decide) rfl rfl rfl
    (by intro v hv; cases hv; rfl)

/-- After the (spec-modelled) `extendSession`, the record under `sessionId`
carries `mcpTokenExpiresAt = now + days·24h`, whatever table it sat in. -/
theorem extendSession_lookup (now : Nat) (token : String) (days : Nat)
    (t2 : SessionTable) (s2 : SessionData)
    (h : lookupKey token t2.sessions = some s2) :
    (lookupKey token (SessionManager.extendSession now token days t2).sessions).map
      SessionData.mcpTokenExpiresAt
      = some (some (now + days * 24 * 60 * 60 * 1000)) := by
  simp [SessionManager.extendSession, h, lookupKey_putKey_self]

/-- `updateAccessToken` always leaves some record under the written key. -/
theorem updateAccessToken_lookup (now : Nat) (sid aTok : String) (gExp : Nat)
    (t : SessionTable) :
    ∃ s2, lookupKey sid
      (SessionManager.updateAccessToken now sid aTok gExp t).sessions = some s2 := by
  cases h : lookupKey sid t.sessions with
  | some s =>
    exact ⟨_, by
      simp [SessionManager.updateAccessToken, h, lookupKey_putKey_self]
      rfl⟩
  | none =>
    exact ⟨_, by
      simp [SessionManager.updateAccessToken, h, lookupKey_putKey_self]
      rfl⟩

/-- Fixture session for the C1 counterexample: reachable (upstream expiry far
ahead of `now = 1000`), with subject identifier `alice@example.com`. -/
def verifyFixtureSession : SessionData :=
  { sessionId := "tokW"
    clientId := some "c1"
    userEmail := some "alice@example.com"
    accessToken := "gatW"
    refreshToken := some "grtW"
    mcpRefreshToken := some "rtW"
    expiresAt := 5000000
    mcpTokenExpiresAt := some 2592000000
    tokenType := "Bearer"
    scope := "s1 s2"
    ttl := 7776000
    createdAt := 0
    updatedAt := 0 }

/-- Fixture table for the C1 counterexample. -/
def verifyFixtureTable : SessionTable :=
  { sessions := [("tokW", verifyFixtureSession)], refreshIdx := [] }

/-- **C1** (counterexample to the claim as stated). On a reachable session
whose stored subject identifier is `alice@example.com`, `verifyAccessToken`
succeeds but the returned `AuthInfo` is exactly
`{token, clientId, scopes}` — the access token itself, the client id, and
the scope list; no component equals the subject identifier, refuting
"returns the subject identifier, the clientId, and the scope list". -/
theorem verify_does_not_return_subject :
    lookupKey "tokW" verifyFixtureTable.sessions = some verifyFixtureSession ∧
    verifyFixtureSession.userEmail = some "alice@example.com" ∧
    (GoogleOAuthProvider.verifyAccessToken 1000 (.error .transientFailure)
        "tokW" verifyFixtureTable).1
      = .ok { token := "tokW", clientId := "c1", scopes := ["s1", "s2"] } ∧
    "tokW" ≠ "alice@example.com" ∧
    "c1" ≠ "alice@example.com" ∧
    "alice@example.com" ∉ (["s1", "s2"] : List String) := by
  refine ⟨rfl, rfl, rfl, by decide, by decide, by decide⟩

/-- **C1 amended** (uses the spec-modelled `extendSession`). For every
session record reachable by the presented downstream access token,
`verifyAccessToken` succeeds — whatever the opportunistic upstream refresh
does — slides the session's downstream expiry (`mcpTokenExpiresAt`) to
30 days from now, and returns the access token itself, the `clientId`
(defaulting to `"unknown"`), and the space-split scope list; the subject
identifier is not part of the result. -/
theorem verify_slides_window_and_returns (now : Nat)
    (upstreamRefresh : Except UpstreamErrorKind GoogleCredentials)
    (token : String) (t : SessionTable) (s : SessionData)
    (hlook : lookupKey token t.sessions = some s)
    (hlive : now ≤ s.expiresAt) :
    (GoogleOAuthProvider.verifyAccessToken now upstreamRefresh token t).1
      = .ok { token := token, clientId := s.clientId.getD "unknown",
              scopes := jsSplit ' ' s.scope } ∧
    (lookupKey token
        ((GoogleOAuthProvider.verifyAccessToken now upstreamRefresh token t).2).sessions).map
      SessionData.mcpTokenExpiresAt
      = some (some (now + 30 * 24 * 60 * 60 * 1000)) := by
  have hg := getSession_found now token t s hlook hlive
  constructor
  · simp [GoogleOAuthProvider.verifyAccessToken, hg]
  · simp only [GoogleOAuthProvider.verifyAccessToken, hg]
    split
    · split
      · split
        · obtain ⟨s2, hs2⟩ := updateAccessToken_lookup now token _ _ t
          simpa using extendSession_lookup now token 30 _ s2 hs2
        · simpa using extendSession_lookup now token 30 t s hlook
      · simpa using extendSession_lookup now token 30 t s hlook
    · simpa using extendSession_lookup now token 30 t s hlook

/-- C1 witness: `verify_slides_window_and_returns` applied at the concrete
reachable session (a transient upstream outcome is supplied and ignored). -/
theorem verify_slides_window_and_returns_witness :
    (GoogleOAuthProvider.verifyAccessToken 1000 (.error .transientFailure)
        "tokW" verifyFixtureTable).1
      = .ok { token := "tokW",
              clientId := verifyFixtureSession.clientId.getD "unknown",
              scopes := jsSplit ' ' verifyFixtureSession.scope } ∧
    (lookupKey "tokW"
        ((GoogleOAuthProvider.verifyAccessToken 1000 (.error .transientFailure)
          "tokW" verifyFixtureTable).2).sessions).map
      SessionData.mcpTokenExpiresAt
      = some (some (1000 + 30 * 24 * 60 * 60 * 1000)) :=
  verify_slides_window_and_returns 1000 (.error .transientFailure) "tokW"
    verifyFixtureTable verifyFixtureSession rfl (by decide)

/-- **C7.** Refresh rotation: a successful `exchangeRefreshToken` returns the
SAME downstream refresh value it was given next to the freshly minted access
value `aNew`; afterwards the refresh index resolves (exclusively) to the new
session keyed by `aNew`, while the superseded session stays retrievable under
its own old `sessionId` at any time up to its own (updated) expiry. -/
theorem refresh_rotation_invariants (now : Nat) (aNew rt gTok : String)
    (gExp : Nat) (st : ProviderState) (idx : RefreshIndexItem)
    (s : SessionData)
    (hidx : lookupKey ("refresh:" ++ rt) st.sessions.refreshIdx = some idx)
    (hlook : lookupKey idx.accessTokenSessionId st.sessions.sessions = some s)
    (hsid : s.sessionId = idx.accessTokenSessionId)
    (hlive : now ≤ s.expiresAt)
    (hglive : now ≤ gExp)
    (hfresh : aNew ≠ s.sessionId) :
    (GoogleOAuthProvider.exchangeRefreshToken now aNew
        (.ok { access_token := some gTok, expiry_date := some gExp }) rt st).1
      = .ok { access_token := aNew, token_type := "Bearer",
              expires_in := GoogleOAuthProvider.expiresIn,
              refresh_token := some rt, scope := some s.scope } ∧
    ((SessionManager.getSessionByRefreshToken now rt
        (GoogleOAuthProvider.exchangeRefreshToken now aNew
          (.ok { access_token := some gTok, expiry_date := some gExp }) rt
          st).2.sessions).1).map SessionData.sessionId = some aNew ∧
    ∀ now2, now2 ≤ gExp →
      ((SessionManager.getSession now2 s.sessionId
          (GoogleOAuthProvider.exchangeRefreshToken now aNew
            (.ok { access_token := some gTok, expiry_date := some gExp }) rt
            st).2.sessions).1).map SessionData.sessionId = some s.sessionId := by
  have hfound := getSessionByRefreshToken_found now rt st.sessions idx s hidx
    hlook hlive
  have hlookSid : lookupKey s.sessionId st.sessions.sessions = some s := by
    rw [hsid]; exact hlook
  have hsidne : s.sessionId ≠ aNew := fun hc => hfresh hc.symm
  have htable : (GoogleOAuthProvider.exchangeRefreshToken now aNew
      (.ok { access_token := some gTok, expiry_date := some gExp }) rt
      st).2.sessions
      = { sessions :=
            putKey aNew
              { sessionId := aNew
                clientId := s.clientId
                userEmail := s.userEmail
                accessToken := gTok
                refreshToken := s.refreshToken
                mcpRefreshToken := some rt
                expiresAt := gExp
                mcpTokenExpiresAt := some (now + GoogleOAuthProvider.expiresIn * 1000)
                tokenType := "Bearer"
                scope := s.scope
                ttl := now / 1000 + SessionManager.NINETY_DAYS
                createdAt := now
                updatedAt := now }
              (putKey s.sessionId
                { s with
                  accessToken := gTok
                  expiresAt := gExp
                  ttl := now / 1000 + SessionManager.NINETY_DAYS
                  updatedAt := now }
                st.sessions.sessions)
          refreshIdx :=
            putKey ("refresh:" ++ rt)
              { accessTokenSessionId := aNew
                ttl := now / 1000 + SessionManager.NINETY_DAYS
                createdAt := now
                updatedAt := now }
              st.sessions.refreshIdx } := by
    simp [GoogleOAuthProvider.exchangeRefreshToken, hfound,
      SessionManager.updateAccessToken, hlookSid, SessionManager.saveSession]
  refine ⟨?_, ?_, ?_⟩
  · simp [GoogleOAuthProvider.exchangeRefreshToken, hfound]
  · rw [htable]
    simp [SessionManager.getSessionByRefreshToken, SessionManager.getSession,
      lookupKey_putKey_self, Nat.not_lt.mpr hglive]
  · intro now2 hnow2
    rw [htable]
    simp [SessionManager.getSession,
      lookupKey_putKey_ne aNew s.sessionId _ hsidne, lookupKey_putKey_self,
      Nat.not_lt.mpr hnow2]

/-- Fixture session for the C7 witness. -/
def rotationFixtureSession : SessionData :=
  { sessionId := "tokR"
    clientId := some "c7"
    userEmail := some "ruth@example.com"
    accessToken := "gatR"
    refreshToken := some "grtR"
    mcpRefreshToken := some "rtR"
    expiresAt := 3600000
    mcpTokenExpiresAt := some 2592000000
    tokenType := "Bearer"
    scope := "contacts.readonly"
    ttl := 7776000
    createdAt := 0
    updatedAt := 0 }

/-- Fixture provider state for the C7 witness. -/
def rotationFixtureSt : ProviderState :=
  { authCodes := []
    sessions :=
      { sessions := [("tokR", rotationFixtureSession)]
        refreshIdx :=
          [("refresh:rtR",
            { accessTokenSessionId := "tokR", ttl := 7776000,
              createdAt := 0, updatedAt := 0 })] } }

/-- C7 witness: `refresh_rotation_invariants` applied at the concrete
fixture, with the old-session retrievability instantiated at
`now2 = 5000000 ≤ 7200000`. -/
theorem refresh_rotation_invariants_witness :
    (GoogleOAuthProvider.exchangeRefreshToken 1000 "tokR2"
        (.ok { access_token := some "gatR2", expiry_date := some 7200000 })
        "rtR" rotationFixtureSt).1
      = .ok { access_token := "tokR2", token_type := "Bearer",
              expires_in := GoogleOAuthProvider.expiresIn,
              refresh_token := some "rtR",
              scope := some rotationFixtureSession.scope } ∧
    ((SessionManager.getSessionByRefreshToken 1000 "rtR"
        (GoogleOAuthProvider.exchangeRefreshToken 1000 "tokR2"
          (.ok { access_token := some "gatR2", expiry_date := some 7200000 })
          "rtR" rotationFixtureSt).2.sessions).1).map SessionData.sessionId
      = some "tokR2" ∧
    ((SessionManager.getSession 5000000 rotationFixtureSession.sessionId
        (GoogleOAuthProvider.exchangeRefreshToken 1000 "tokR2"
          (.ok { access_token := some "gatR2", expiry_date := some 7200000 })
          "rtR" rotationFixtureSt).2.sessions).1).map SessionData.sessionId
      = some rotationFixtureSession.sessionId := by
  have h := refresh_rotation_invariants 1000 "tokR2" "rtR" "gatR2" 7200000
    rotationFixtureSt
    { accessTokenSessionId := "tokR", ttl := 7776000,
      createdAt := 0, updatedAt := 0 }
    rotationFixtureSession rfl rfl rfl (by decide) (by decide) (by decide)
  exact ⟨h.1, h.2.1, h.2.2 5000000 (by decide)⟩

end GCMCP
